import Mathlib

/-!
Shallow embedding of `dev/TabView/TabView.cpp` (TabView control logic):
tab-width layout in Equal mode (`UpdateTabWidths`), reselection after an
item removal (`OnItemsChanged`), cyclic tab navigation (`SelectNextTab`,
`GetItemCount`), close-current-tab (`RequestCloseCurrentTab`,
`RequestCloseTab`), selection resolution (`UpdateSelectedItem`),
drag-completed relay (`OnListViewDragItemsCompleted`,
`FindTabViewItemFromDragItem`), focus-navigation interception
(`OnListViewGettingFocus`) and scroll-button hookup
(`OnScrollViewerLoaded`).

Modelling conventions:
- doubles are modelled as rationals (ℚ);
- C++ `%` on `int` is truncated-division remainder, modelled by `Int.tmod`;
- WinRT `try_as<T>()` returns null on failure and is modelled by `Option`;
  WinRT `as<T>()` throws on a failed cast and throws (or, equivalently for
  our purposes, the immediately following method call on the null result
  faults) when applied to a null object; both are modelled as
  `Except.error ()`;
- optional collaborators (template parts, the host list view) are `Bool`
  presence flags or `Option`-valued resolution functions passed as
  parameters.
-/

/-- `winrt::Visibility` as far as the code inspects it. -/
inductive Visibility where
  | visible
  | collapsed
  deriving DecidableEq

/-- The state of a realized `ListViewItem` container that
`TabView::OnItemsChanged` inspects: `IsEnabled()` and `Visibility()`. -/
structure ListViewItemState where
  isEnabled : Bool
  visibility : Visibility
  deriving DecidableEq

/-- `ScrollBarVisibility` values the code assigns. -/
inductive ScrollBarVis where
  | visible
  | hidden
  deriving DecidableEq

/-- `std::clamp(v, lo, hi)`: `lo` if `v < lo`, else `hi` if `hi < v`, else `v`. -/
def stdClamp (v lo hi : ℚ) : ℚ :=
  if v < lo then lo else if hi < v then hi else v

/-- The outputs of the `TabViewWidthMode::Equal` branch of
`TabView::UpdateTabWidths` (lines 518-548): the computed per-tab width,
the tab column's `MaxWidth`, the tab column's `Width`
(`some w` = fixed pixel width, `none` = `GridUnitType::Auto`), and the
horizontal scroll-bar visibility written to the host list
(`none` when the host list is unresolved and nothing is written). -/
structure EqualModeLayout where
  tabWidth : ℚ
  tabColumnMaxWidth : ℚ
  tabColumnPixelWidth : Option ℚ
  scrollBarVisibility : Option ScrollBarVis
  deriving DecidableEq

/-- `TabView::UpdateTabWidths`, `Equal` branch (TabView.cpp lines 518-548).
`availableWidth` is `ActualWidth() - widthTaken`; `padLeft`/`padRight` are
`Padding().Left/.Right`; `numItems` is `TabItems().Size()`. -/
def updateTabWidthsEqual (availableWidth padLeft padRight minTabWidth maxTabWidth : ℚ)
    (numItems : Nat) (hasListView : Bool) : EqualModeLayout :=
  let tabWidthForScroller := (availableWidth - (padLeft + padRight)) / (numItems : ℚ)
  let tabWidth := stdClamp tabWidthForScroller minTabWidth maxTabWidth
  let requiredWidth := tabWidth * (numItems : ℚ)
  if requiredWidth ≥ availableWidth then
    { tabWidth := tabWidth
      tabColumnMaxWidth := availableWidth
      tabColumnPixelWidth := some availableWidth
      scrollBarVisibility := if hasListView then some ScrollBarVis.visible else none }
  else
    { tabWidth := tabWidth
      tabColumnMaxWidth := availableWidth
      tabColumnPixelWidth := none
      scrollBarVisibility := if hasListView then some ScrollBarVis.hidden else none }

/-- `TabView::SelectNextTab` (TabView.cpp lines 648-660). Returns the
`handled` flag and the (possibly unchanged) selected index. C++ `%` is
truncated-division remainder, i.e. `Int.tmod`. -/
def selectNextTab (itemsSize selectedIndex increment : Int) : Bool × Int :=
  if itemsSize > 1 then
    (true, (selectedIndex + increment + itemsSize).tmod itemsSize)
  else
    (false, selectedIndex)

/-- The `while (iter.MoveNext()) i++;` loop of `TabView::GetItemCount`
(lines 632-638): one increment per element remaining after the iterator's
initial position. -/
def iterCountLoop {α : Type} : List α → Int → Int
  | [], i => i
  | _ :: rest, i => iterCountLoop rest (i + 1)

/-- `TabView::GetItemCount` (TabView.cpp lines 626-646).
`tabItemsSource = some (some xs)`: `TabItemsSource()` is set and castable
to `IIterable` with elements `xs`; the counter starts at 1 and the
iterator (positioned at the first element by `First()`) yields one
successful `MoveNext` per element after the first, i.e. the loop runs over
`xs.drop 1`. `some none`: the source is set but not iterable (returns 0).
`none`: no source; `TabItems().Size()` is used. -/
def getItemCount {α : Type} (tabItemsSource : Option (Option (List α)))
    (tabItems : List α) : Int :=
  match tabItemsSource with
  | some (some xs) => iterCountLoop (xs.drop 1) 1
  | some none => 0
  | none => (tabItems.length : Int)

/-- `SelectNextTab` with its item count taken from `GetItemCount`, as in
the keyboard handlers. -/
def selectNextTabOnControl {α : Type} (tabItemsSource : Option (Option (List α)))
    (tabItems : List α) (selectedIndex increment : Int) : Bool × Int :=
  selectNextTab (getItemCount tabItemsSource tabItems) selectedIndex increment

/-- The actual number of elements of the collection `GetItemCount` is
asked about (the bound items source when present, else `TabItems()`);
used to state claims about "collections of size at most 1". A present but
non-iterable source exposes no elements. -/
def collectionSize {α : Type} (tabItemsSource : Option (Option (List α)))
    (tabItems : List α) : Nat :=
  match tabItemsSource with
  | some (some xs) => xs.length
  | some none => 0
  | none => tabItems.length

/-- The enabled-and-visible test of `TabView::OnItemsChanged` line 292,
applied to the container at index `i` (`false` when no container, though
the code in fact faults there, see `selectClosestLoop`). -/
def tabQualifies (containerFromIndex : Nat → Option ListViewItemState) (i : Nat) : Bool :=
  match containerFromIndex i with
  | some c => c.isEnabled && c.visibility == Visibility.visible
  | none => false

/-- The `do { ... } while (index != startIndex);` loop of
`TabView::OnItemsChanged` (lines 288-304). `containerFromIndex i = none`
models `ContainerFromIndex(index)` returning null, on which the
`as<winrt::ListViewItem>()` cast throws (`Except.error`). A qualifying
container selects its index (`Except.ok (some index)`); a full cycle
without a hit leaves selection untouched (`Except.ok none`). The fuel
argument is `numItems`, which bounds the loop's at-most-one-full-pass. -/
def selectClosestLoop (numItems startIndex : Nat)
    (containerFromIndex : Nat → Option ListViewItemState) :
    Nat → Nat → Except Unit (Option Nat)
  | 0, _ => Except.ok none
  | fuel + 1, index =>
    match containerFromIndex index with
    | none => Except.error ()
    | some nextItem =>
      if nextItem.isEnabled && nextItem.visibility == Visibility.visible then
        Except.ok (some index)
      else
        let index2 := if numItems ≤ index + 1 then 0 else index + 1
        if index2 = startIndex then Except.ok none
        else selectClosestLoop numItems startIndex containerFromIndex fuel index2

/-- The `ItemRemoved` branch of `TabView::OnItemsChanged`
(TabView.cpp lines 274-306). `numItems` is `TabItems().Size()` after the
removal, `selectedIndex` is `SelectedIndex()`, `removalIndex` is
`args.Index()`. Result `Except.ok (some i)` means
`SelectedItem(TabItems().GetAt(i))` was executed; `Except.ok none` means
the selection was left alone; `Except.error ()` models the throwing
`as<ListViewItem>` cast on a null container. -/
def onItemsChangedRemoved (numItems : Nat) (selectedIndex : Int) (removalIndex : Nat)
    (containerFromIndex : Nat → Option ListViewItemState) : Except Unit (Option Nat) :=
  if 0 < numItems then
    if selectedIndex == -1 || selectedIndex == (removalIndex : Int) then
      let startIndex := if numItems ≤ removalIndex then numItems - 1 else removalIndex
      selectClosestLoop numItems startIndex containerFromIndex numItems startIndex
    else Except.ok none
  else Except.ok none

/-- The circular scan order over `n` indices starting at `start`:
`start, start+1, ..., n-1, 0, 1, ...`, one full pass. -/
def cycleFrom (n start : Nat) : List Nat :=
  (List.range n).map (fun k => (start + k) % n)

/-- A `TabViewItem` as `RequestCloseCurrentTab` sees it: its identity and
its `IsClosable()` flag. -/
structure TabItemHandle where
  id : Nat
  isClosable : Bool
  deriving DecidableEq

/-- The notifications raised by `TabView::RequestCloseTab`:
`m_tabCloseRequestedEventSource` (the TabView-level close-request event)
and the item's own `RaiseRequestClose`. -/
inductive CloseEvent where
  | tabCloseRequested (tabId : Nat)
  | itemCloseRequested (tabId : Nat)
  deriving DecidableEq

/-- `TabView::RequestCloseTab` (TabView.cpp lines 447-460): everything is
inside `if (auto listView = m_listView.get())`, so nothing is raised when
the host list is unresolved. -/
def requestCloseTab (hasListView : Bool) (container : TabItemHandle) : List CloseEvent :=
  if hasListView then
    [CloseEvent.tabCloseRequested container.id, CloseEvent.itemCloseRequested container.id]
  else []

/-- `TabView::RequestCloseCurrentTab` (TabView.cpp lines 662-676).
`selectedTab` is `SelectedItem().try_as<winrt::TabViewItem>()`. Returns
the `handled` flag (as reported by `OnCtrlF4Invoked`) and the raised
events. -/
def requestCloseCurrentTab (hasListView : Bool) (selectedTab : Option TabItemHandle) :
    Bool × List CloseEvent :=
  match selectedTab with
  | some tab =>
    if tab.isClosable then (true, requestCloseTab hasListView tab) else (false, [])
  | none => (false, [])

/-- An `IInspectable` item of the tab collection: either itself a
`TabViewItem` container (the direct `try_as<TabViewItem>` cast succeeds)
or a plain data item. -/
inductive TabDataItem where
  | tabContainerItem (id : Nat)
  | dataOnlyItem (id : Nat)
  deriving DecidableEq

/-- `item.try_as<winrt::TabViewItem>()`. -/
def tryAsTabViewItem : TabDataItem → Option Nat
  | TabDataItem.tabContainerItem id => some id
  | TabDataItem.dataOnlyItem _ => none

/-- The writes performed by `TabView::UpdateSelectedItem`:
the host list's `SelectedItem` (final value) and the container whose
`IsSelected(true)` was set, if any. -/
structure SelectionWrite where
  hostSelected : Option Nat
  markedSelected : Option Nat
  deriving DecidableEq

/-- `TabView::UpdateSelectedItem` (TabView.cpp lines 570-589).
`containerFromItem` is the host list's item-to-container mapping followed
by `try_as<TabViewItem>` (both casts here are the non-throwing `try_as`).
`hostSelected` is the host list's selection before the call. -/
def updateSelectedItem (hasListView : Bool)
    (containerFromItem : TabDataItem → Option Nat)
    (selectedItem : Option TabDataItem) (hostSelected : Option Nat) : SelectionWrite :=
  if hasListView then
    let tvi :=
      match selectedItem with
      | none => none
      | some it =>
        match tryAsTabViewItem it with
        | some t => some t
        | none => containerFromItem it
    match tvi with
    | some t => { hostSelected := some t, markedSelected := some t }
    | none => { hostSelected := hostSelected, markedSelected := none }
  else { hostSelected := hostSelected, markedSelected := none }

/-- The fallback scan of `TabView::FindTabViewItemFromDragItem`
(lines 340-350): for each index, `ContainerFromIndex(i).try_as<TabViewItem>()`
(null-safe), then `tabItem.Content() == item` — a call on the null
`tabItem` when the cast failed, which faults (`Except.error`). -/
def fallbackScanContent (containerFromIndexAsTab : Nat → Option Nat)
    (contentOf : Nat → TabDataItem) (item : TabDataItem) :
    Nat → Nat → Except Unit (Option Nat)
  | 0, _ => Except.ok none
  | fuel + 1, i =>
    match containerFromIndexAsTab i with
    | none => Except.error ()
    | some t =>
      if contentOf t == item then Except.ok (some t)
      else fallbackScanContent containerFromIndexAsTab contentOf item fuel (i + 1)

/-- `TabView::FindTabViewItemFromDragItem` (TabView.cpp lines 325-353):
direct container lookup, else visual-parent lookup, else the linear
content scan. `visualParentAsTab` already folds in the
`try_as<FrameworkElement>` guard. -/
def findTabViewItemFromDragItem
    (containerFromItemAsTab : TabDataItem → Option Nat)
    (visualParentAsTab : TabDataItem → Option Nat)
    (numItems : Nat)
    (containerFromIndexAsTab : Nat → Option Nat)
    (contentOf : Nat → TabDataItem)
    (item : TabDataItem) : Except Unit (Option Nat) :=
  match containerFromItemAsTab item with
  | some t => Except.ok (some t)
  | none =>
    match visualParentAsTab item with
    | some t => Except.ok (some t)
    | none => fallbackScanContent containerFromIndexAsTab contentOf item numItems 0

/-- `winrt::DataPackageOperation` as the drag-completed handler inspects
it (`None` means the drop landed outside the tab strip). -/
inductive DropOperation where
  | opNone
  | opCopy
  | opMove
  | opLink
  deriving DecidableEq

/-- Tab-scoped drag events re-emitted by the drag relay. -/
inductive DragEvent where
  | dragCompleted (item : TabDataItem) (tab : Option Nat)
  | droppedOutside (item : TabDataItem) (tab : Option Nat)
  deriving DecidableEq

/-- `TabView::OnListViewDragItemsCompleted` (TabView.cpp lines 374-388):
resolve the dragged item, raise `m_tabDragCompletedEventSource`, and
additionally raise `m_tabDroppedOutsideEventSource` exactly when
`args.DropResult() == DataPackageOperation::None`. -/
def onListViewDragItemsCompleted
    (containerFromItemAsTab visualParentAsTab : TabDataItem → Option Nat)
    (numItems : Nat) (containerFromIndexAsTab : Nat → Option Nat)
    (contentOf : Nat → TabDataItem)
    (item : TabDataItem) (dropResult : DropOperation) : Except Unit (List DragEvent) :=
  match findTabViewItemFromDragItem containerFromItemAsTab visualParentAsTab numItems
      containerFromIndexAsTab contentOf item with
  | Except.error e => Except.error e
  | Except.ok tab =>
    if dropResult == DropOperation.opNone then
      Except.ok [DragEvent.dragCompleted item tab, DragEvent.droppedOutside item tab]
    else
      Except.ok [DragEvent.dragCompleted item tab]

/-- `winrt::FocusNavigationDirection` values the handler distinguishes. -/
inductive FocusNavDirection where
  | up
  | down
  | left
  | right
  deriving DecidableEq

/-- `winrt::FocusInputDeviceKind` values the handler distinguishes. -/
inductive FocusDeviceKind where
  | keyboard
  | mouse
  | touch
  | pen
  | gameController
  deriving DecidableEq

/-- The flags `TabView::OnListViewGettingFocus` writes on the event args:
`Cancel`, `Handled`, and whether the game-pad redirection branch ran. -/
structure FocusNavOutcome where
  cancelled : Bool
  handled : Bool
  redirected : Bool
  deriving DecidableEq

/-- `TabView::OnListViewGettingFocus` (TabView.cpp lines 122-178).
`oldItemAsTab`/`newItemAsTab` are the `try_as<TabViewItem>` casts of the
old/new focused elements; `indexFromContainer` is
`listView.IndexFromContainer` (`-1` = not from this list view). -/
def onListViewGettingFocus (direction : FocusNavDirection)
    (oldItemAsTab newItemAsTab : Option Nat)
    (hasListView : Bool) (indexFromContainer : Nat → Int)
    (inputDevice : FocusDeviceKind) : FocusNavOutcome :=
  if direction == FocusNavDirection.up || direction == FocusNavDirection.down then
    match oldItemAsTab, newItemAsTab with
    | some oldC, some newC =>
      if hasListView then
        if indexFromContainer oldC != -1 && indexFromContainer newC != -1 then
          if inputDevice == FocusDeviceKind.gameController then
            { cancelled := false, handled := true, redirected := true }
          else
            { cancelled := true, handled := true, redirected := false }
        else { cancelled := false, handled := false, redirected := false }
      else { cancelled := false, handled := false, redirected := false }
    | _, _ => { cancelled := false, handled := false, redirected := false }
  else { cancelled := false, handled := false, redirected := false }

/-- A child returned by `SharedHelpers::FindInVisualTreeByName`. -/
inductive VisualTreeChild where
  | repeatButton (id : Nat)
  | otherElement
  deriving DecidableEq

/-- The `as<winrt::RepeatButton>()` cast applied to the lookup result in
`TabView::OnScrollViewerLoaded`: `as` throws on a failed cast, and on a
null lookup result the cast (or, at latest, the immediately following
`.Click(...)` subscription on the null button) faults; both are
`Except.error`. -/
def asRepeatButton : Option VisualTreeChild → Except Unit Nat
  | some (VisualTreeChild.repeatButton id) => Except.ok id
  | some VisualTreeChild.otherElement => Except.error ()
  | none => Except.error ()

/-- `TabView::OnScrollViewerLoaded` (TabView.cpp lines 250-262), the part
inside `if (auto&& scrollViewer = m_scrollViewer.get())`: resolve
`ScrollDecreaseButton` and `ScrollIncreaseButton` by name and subscribe to
their `Click` events, with no null/presence guard on either lookup. -/
def onScrollViewerLoaded (hasScrollViewer : Bool)
    (findInVisualTreeByName : String → Option VisualTreeChild) : Except Unit Unit :=
  if hasScrollViewer then
    match asRepeatButton (findInVisualTreeByName "ScrollDecreaseButton") with
    | Except.error e => Except.error e
    | Except.ok _ =>
      match asRepeatButton (findInVisualTreeByName "ScrollIncreaseButton") with
      | Except.error e => Except.error e
      | Except.ok _ => Except.ok ()
  else Except.ok ()

/-! ## Helper lemmas -/

lemma stdClamp_le_and_ge (v lo hi : ℚ) (h : lo ≤ hi) :
    lo ≤ stdClamp v lo hi ∧ stdClamp v lo hi ≤ hi := by
  unfold stdClamp
  split_ifs with h1 h2
  · exact ⟨le_refl lo, h⟩
  · exact ⟨h, le_refl hi⟩
  · exact ⟨le_of_not_lt h1, le_of_not_lt h2⟩

/-! ## Claims -/

/-- Claim C1: in Equal width mode, for every tab count `N ≥ 1`, every
available width and horizontal padding, and bounds
`minTabWidth ≤ maxTabWidth`, the computation sets
`tabWidth = clamp((availableWidth - horizontalPadding) / N, minTabWidth,
maxTabWidth)`, so `minTabWidth ≤ tabWidth ≤ maxTabWidth`; if
`tabWidth * N ≥ availableWidth` the tab-strip column width is fixed to
exactly `availableWidth` and the host list's horizontal scroll bar is
forced visible, otherwise the column auto-sizes and the scroll bar is
hidden. -/
theorem updateTabWidthsEqual_spec (aw pl pr lo hi : ℚ) (n : Nat)
    (hn : 1 ≤ n) (hlohi : lo ≤ hi) :
    (updateTabWidthsEqual aw pl pr lo hi n true).tabWidth
        = stdClamp ((aw - (pl + pr)) / (n : ℚ)) lo hi
    ∧ lo ≤ (updateTabWidthsEqual aw pl pr lo hi n true).tabWidth
    ∧ (updateTabWidthsEqual aw pl pr lo hi n true).tabWidth ≤ hi
    ∧ ((updateTabWidthsEqual aw pl pr lo hi n true).tabWidth * (n : ℚ) ≥ aw →
        (updateTabWidthsEqual aw pl pr lo hi n true).tabColumnPixelWidth = some aw ∧
        (updateTabWidthsEqual aw pl pr lo hi n true).scrollBarVisibility
          = some ScrollBarVis.visible)
    ∧ ((updateTabWidthsEqual aw pl pr lo hi n true).tabWidth * (n : ℚ) < aw →
        (updateTabWidthsEqual aw pl pr lo hi n true).tabColumnPixelWidth = none ∧
        (updateTabWidthsEqual aw pl pr lo hi n true).scrollBarVisibility
          = some ScrollBarVis.hidden) := by
  have hb := stdClamp_le_and_ge ((aw - (pl + pr)) / (n : ℚ)) lo hi hlohi
  by_cases hreq : stdClamp ((aw - (pl + pr)) / (n : ℚ)) lo hi * (n : ℚ) ≥ aw
  · have he : updateTabWidthsEqual aw pl pr lo hi n true =
        { tabWidth := stdClamp ((aw - (pl + pr)) / (n : ℚ)) lo hi
          tabColumnMaxWidth := aw
          tabColumnPixelWidth := some aw
          scrollBarVisibility := some ScrollBarVis.visible } := by
      simp only [updateTabWidthsEqual, if_true]
      rw [if_pos hreq]
    rw [he]
    exact ⟨rfl, hb.1, hb.2, fun _ => ⟨rfl, rfl⟩, fun hlt => absurd hreq (not_le.mpr hlt)⟩
  · have he : updateTabWidthsEqual aw pl pr lo hi n true =
        { tabWidth := stdClamp ((aw - (pl + pr)) / (n : ℚ)) lo hi
          tabColumnMaxWidth := aw
          tabColumnPixelWidth := none
          scrollBarVisibility := some ScrollBarVis.hidden } := by
      simp only [updateTabWidthsEqual, if_true]
      rw [if_neg hreq]
    rw [he]
    exact ⟨rfl, hb.1, hb.2, fun hge => absurd hge hreq, fun _ => ⟨rfl, rfl⟩⟩

/-- Witness for C1 at the spec's own scenario: 3 tabs, available width
300, no padding, bounds 48/200: `tabWidth = 100`, `required = 300 ≥ 300`,
column fixed at 300, scroll bar visible. -/
theorem updateTabWidthsEqual_spec_witness :
    (48 : ℚ) ≤ (updateTabWidthsEqual 300 0 0 48 200 3 true).tabWidth ∧
    (updateTabWidthsEqual 300 0 0 48 200 3 true).tabWidth ≤ 200 ∧
    (updateTabWidthsEqual 300 0 0 48 200 3 true).tabColumnPixelWidth = some 300 ∧
    (updateTabWidthsEqual 300 0 0 48 200 3 true).scrollBarVisibility
      = some ScrollBarVis.visible := by
  have h := updateTabWidthsEqual_spec 300 0 0 48 200 3 (by norm_num) (by norm_num)
  have hw : (updateTabWidthsEqual 300 0 0 48 200 3 true).tabWidth = 100 := by
    rw [h.1]; norm_num [stdClamp]
  have hge := h.2.2.2.1 (by rw [hw]; norm_num)
  exact ⟨h.2.1, h.2.2.1, hge.1, hge.2⟩

/-- Claim C3 counterexample: with 2 tabs and the unset starting index
`-1`, `selectNextTab(+1)` selects 0 and the following `selectNextTab(-1)`
selects 1, not the original `-1`; the round trip is not the identity for
every starting selected index. -/
theorem selectNextTab_roundtrip_cex :
    (selectNextTab 2 (selectNextTab 2 (-1) 1).2 (-1)).2 = 1 ∧ (1 : Int) ≠ -1 := by
  decide

/-- Claim C3 (amended): for every tab count greater than 1 and every
starting selected index that denotes an actual selection
(`0 ≤ index < count`), `selectNextTab(+1)` followed by `selectNextTab(-1)`
restores the original selected index. -/
theorem selectNextTab_roundtrip (n idx : Int)
    (hn : 1 < n) (h0 : 0 ≤ idx) (hlt : idx < n) :
    (selectNextTab n (selectNextTab n idx 1).2 (-1)).2 = idx := by
  have hself : ∀ a : ℤ, (a + n) % n = a % n := by
    intro a
    rw [Int.add_emod, Int.emod_self, add_zero, Int.emod_emod_of_dvd a dvd_rfl]
  have hkey : ∀ a c : ℤ, (a % n + c) % n = (a + c) % n := by
    intro a c
    conv_lhs => rw [Int.add_emod]
    conv_rhs => rw [Int.add_emod]
    rw [Int.emod_emod_of_dvd a dvd_rfl]
  have h1 : selectNextTab n idx 1 = (true, (idx + 1 + n) % n) := by
    simp only [selectNextTab, if_pos hn]
    rw [Int.tmod_eq_emod (by omega) (by omega)]
  have h1b : 0 ≤ (idx + 1 + n) % n := Int.emod_nonneg _ (by omega)
  have h2 : selectNextTab n ((idx + 1 + n) % n) (-1) =
      (true, ((idx + 1 + n) % n + -1 + n) % n) := by
    simp only [selectNextTab, if_pos hn]
    rw [Int.tmod_eq_emod (by omega) (by omega)]
  rw [h1, h2]
  have h3 : (idx + 1 + n) % n + -1 + n = (idx + 1 + n) % n + (-1 + n) := by ring
  rw [h3, hkey]
  have h4 : idx + 1 + n + (-1 + n) = (idx + n) + n := by ring
  rw [h4, hself, hself, Int.emod_eq_of_lt h0 hlt]

/-- Witness for the amended C3: 5 tabs, index 3: forward then backward
returns to 3. -/
theorem selectNextTab_roundtrip_witness :
    (selectNextTab 5 (selectNextTab 5 3 1).2 (-1)).2 = 3 :=
  selectNextTab_roundtrip 5 3 (by norm_num) (by norm_num) (by norm_num)

/-- Claim C9: whenever the collection actually holds at most one item —
whether it is a bound items source (iterable or not) or the adapter's own
`TabItems()` sequence — `SelectNextTab` reports unhandled and leaves the
selected index unchanged, for either increment. -/
theorem selectNextTab_small_collection {α : Type} (src : Option (Option (List α)))
    (tabItems : List α) (idx inc : Int)
    (h : collectionSize src tabItems ≤ 1) :
    selectNextTabOnControl src tabItems idx inc = (false, idx) := by
  match src with
  | some (some xs) =>
    have hlen : xs.length ≤ 1 := h
    have hdrop : xs.drop 1 = [] := List.drop_eq_nil_of_le hlen
    simp [selectNextTabOnControl, getItemCount, selectNextTab, hdrop, iterCountLoop]
  | some none =>
    simp [selectNextTabOnControl, getItemCount, selectNextTab]
  | none =>
    have hlen : tabItems.length ≤ 1 := h
    have hle : (tabItems.length : Int) ≤ 1 := by exact_mod_cast hlen
    simp only [selectNextTabOnControl, getItemCount, selectNextTab]
    rw [if_neg (by omega)]

/-- Witness for C9: a bound single-element items source, current index 7:
unhandled, index stays 7. -/
theorem selectNextTab_small_collection_witness :
    selectNextTabOnControl (some (some [0])) ([] : List Nat) 7 1 = (false, 7) :=
  selectNextTab_small_collection (some (some [0])) [] 7 1 (by decide)

/-- Claim C10: whenever `SelectNextTab` runs with item count `n > 1`, a
prior selected index of at least `-1`, and one of the increments the
handlers pass (`+1` or `-1`), it reports handled and the newly assigned
index lies in `[0, n)`; in particular from the unset selection `-1`,
increment `+1` selects 0 and increment `-1` selects `n - 2`. -/
theorem selectNextTab_handled_range (n idx inc : Int)
    (hn : 1 < n) (hidx : -1 ≤ idx) (hinc : inc = 1 ∨ inc = -1) :
    (selectNextTab n idx inc).1 = true ∧
    0 ≤ (selectNextTab n idx inc).2 ∧ (selectNextTab n idx inc).2 < n ∧
    (idx = -1 → inc = 1 → (selectNextTab n idx inc).2 = 0) ∧
    (idx = -1 → inc = -1 → (selectNextTab n idx inc).2 = n - 2) := by
  have hnn : 0 ≤ idx + inc + n := by rcases hinc with h | h <;> omega
  have hsel : selectNextTab n idx inc = (true, (idx + inc + n) % n) := by
    simp only [selectNextTab, if_pos hn]
    rw [Int.tmod_eq_emod hnn (by omega)]
  rw [hsel]
  refine ⟨rfl, Int.emod_nonneg _ (by omega), Int.emod_lt_of_pos _ (by omega), ?_, ?_⟩
  · intro h1 h2
    subst h1; subst h2
    have he : (-1 : ℤ) + 1 + n = n := by ring
    rw [he, Int.emod_self]
  · intro h1 h2
    subst h1; subst h2
    have he : (-1 : ℤ) + -1 + n = n - 2 := by ring
    rw [he, Int.emod_eq_of_lt (by omega) (by omega)]

/-- Witness for C10: 3 tabs, unset selection, increment `-1`: handled and
the new index is `3 - 2 = 1`. -/
theorem selectNextTab_handled_range_witness :
    (selectNextTab 3 (-1) (-1)).1 = true ∧ (selectNextTab 3 (-1) (-1)).2 = 3 - 2 :=
  let h := selectNextTab_handled_range 3 (-1) (-1) (by norm_num) (by norm_num) (Or.inr rfl)
  ⟨h.1, h.2.2.2.2 rfl rfl⟩

/-- Claim C4 (refuted; the code fail-fasts): when the scroll viewer loads
and the template's scroll viewer has no child named
`ScrollDecreaseButton`, the name lookup returns null and the unguarded
`as<winrt::RepeatButton>()` cast (and the `Click` subscription on the
result) faults instead of skipping — contradicting the claim that every
operation on an absent optional resource no-ops behind a presence
check. -/
theorem onScrollViewerLoaded_fail_fast :
    onScrollViewerLoaded true (fun _ => none) = Except.error () := rfl

/-- Claim C5 counterexample: a closable selected tab with the host list
template part unresolved: `RequestCloseCurrentTab` reports handled, yet
`RequestCloseTab` raises no event at all — the claim's "handled iff ...,
and in exactly that case one close-request event is raised" fails. -/
theorem requestCloseCurrentTab_cex :
    (requestCloseCurrentTab false (some ⟨0, true⟩)).1 = true ∧
    (requestCloseCurrentTab false (some ⟨0, true⟩)).2 = [] := by
  decide

/-- Claim C5 (amended): the close-current-tab command reports handled iff
a selected tab exists and is marked closable; when it is handled and the
host list template part is resolved it raises exactly one close-request
event carrying the selected tab (followed by the item's own
close-request); when it is unhandled, or the host list is unresolved,
nothing is raised. -/
theorem requestCloseCurrentTab_spec (hasListView : Bool)
    (selectedTab : Option TabItemHandle) :
    ((requestCloseCurrentTab hasListView selectedTab).1 = true ↔
      ∃ t, selectedTab = some t ∧ t.isClosable = true)
    ∧ (∀ t, selectedTab = some t → t.isClosable = true → hasListView = true →
        (requestCloseCurrentTab hasListView selectedTab).2 =
          [CloseEvent.tabCloseRequested t.id, CloseEvent.itemCloseRequested t.id])
    ∧ ((requestCloseCurrentTab hasListView selectedTab).1 = false →
        (requestCloseCurrentTab hasListView selectedTab).2 = [])
    ∧ (hasListView = false → (requestCloseCurrentTab hasListView selectedTab).2 = []) := by
  match selectedTab with
  | none =>
    refine ⟨?_, ?_, ?_, ?_⟩
    · simp [requestCloseCurrentTab]
    · intro t ht; exact absurd ht (by simp)
    · intro _; rfl
    · intro _; rfl
  | some tab =>
    by_cases hc : tab.isClosable = true
    · refine ⟨?_, ?_, ?_, ?_⟩
      · simp [requestCloseCurrentTab, hc]
      · intro t ht htc hlv
        cases ht
        subst hlv
        simp [requestCloseCurrentTab, hc, requestCloseTab]
      · intro hfalse
        exfalso
        simp [requestCloseCurrentTab, hc] at hfalse
      · intro hlv
        subst hlv
        simp [requestCloseCurrentTab, hc, requestCloseTab]
    · have hcf : tab.isClosable = false := by
        cases h : tab.isClosable
        · rfl
        · exact absurd h hc
      refine ⟨?_, ?_, ?_, ?_⟩
      · simp [requestCloseCurrentTab, hcf]
      · intro t ht htc
        cases ht
        exact absurd htc hc
      · intro _; simp [requestCloseCurrentTab, hcf]
      · intro _; simp [requestCloseCurrentTab, hcf]

/-- Witness for the amended C5: closable selected tab 4 with the host
list resolved: handled, and exactly the close-request for tab 4 (plus the
item's own close-request) is raised. -/
theorem requestCloseCurrentTab_spec_witness :
    (requestCloseCurrentTab true (some ⟨4, true⟩)).2 =
      [CloseEvent.tabCloseRequested 4, CloseEvent.itemCloseRequested 4] :=
  (requestCloseCurrentTab_spec true (some ⟨4, true⟩)).2.1 ⟨4, true⟩ rfl rfl rfl

/-- Claim C6 counterexample: an item that is itself a `TabViewItem` but
not present in the collection (the host mapping resolves nothing): the
direct cast succeeds, so the host list's `SelectedItem` IS written (to
that foreign container) and its is-selected flag IS set — the claim's
"leaves the host list's selection state unchanged" fails. -/
theorem updateSelectedItem_cex :
    updateSelectedItem true (fun _ => none) (some (TabDataItem.tabContainerItem 5)) none ≠
      { hostSelected := none, markedSelected := none } := by
  decide

/-- Claim C6 (amended): for every item that is not itself a tab container
(the direct `try_as<TabViewItem>` cast fails) and is not present in the
tab collection, setting `SelectedItem` to it resolves to no container and
leaves the host list's selection unchanged: the host list's
`SelectedItem` is not written and no tab's is-selected flag is set. -/
theorem updateSelectedItem_absent (hasListView : Bool)
    (containerFromItem : TabDataItem → Option Nat)
    (tabItems : List TabDataItem) (item : TabDataItem) (hostSelected : Option Nat)
    (hcast : tryAsTabViewItem item = none)
    (hmap : ∀ x, x ∉ tabItems → containerFromItem x = none)
    (hmem : item ∉ tabItems) :
    updateSelectedItem hasListView containerFromItem (some item) hostSelected =
      { hostSelected := hostSelected, markedSelected := none } := by
  cases hasListView
  · rfl
  · simp [updateSelectedItem, hcast, hmap item hmem]

/-- Witness for the amended C6: a data item absent from an empty
collection, prior host selection 2: nothing changes. -/
theorem updateSelectedItem_absent_witness :
    updateSelectedItem true (fun _ => none) (some (TabDataItem.dataOnlyItem 9)) (some 2) =
      { hostSelected := some 2, markedSelected := none } :=
  updateSelectedItem_absent true (fun _ => none) [] (TabDataItem.dataOnlyItem 9) (some 2)
    rfl (fun _ _ => rfl) (List.not_mem_nil _)

/-- Claim C7 counterexample: a drag-completed callback for an item whose
direct container lookup and visual-parent lookup both fail, over a
one-item collection whose container is unrealized: the fallback scan
calls `Content()` on the null `try_as<TabViewItem>` result and faults
before any event is raised — zero events are emitted on this callback,
refuting "on every drag-completed callback, exactly one drag-completed
event is emitted". -/
theorem onListViewDragItemsCompleted_cex :
    onListViewDragItemsCompleted (fun _ => none) (fun _ => none) 1 (fun _ => none)
        (fun _ => TabDataItem.dataOnlyItem 0) (TabDataItem.dataOnlyItem 1)
        DropOperation.opNone = Except.error () := rfl

/-- Claim C7 (amended): on every drag-completed callback whose
item-to-tab resolution completes (returning the resolved tab, possibly
null, rather than faulting in the unguarded fallback content scan),
exactly one drag-completed event is emitted, and exactly one additional
dropped-outside event — carrying the same item and resolved tab — is
emitted if and only if the drop result is `None`; a callback whose
resolution faults emits no events. -/
theorem onListViewDragItemsCompleted_spec
    (cfi vp : TabDataItem → Option Nat) (n : Nat) (cfx : Nat → Option Nat)
    (contentOf : Nat → TabDataItem) (item : TabDataItem) (dropResult : DropOperation)
    (tab : Option Nat)
    (hres : findTabViewItemFromDragItem cfi vp n cfx contentOf item = Except.ok tab) :
    onListViewDragItemsCompleted cfi vp n cfx contentOf item dropResult =
      Except.ok (DragEvent.dragCompleted item tab ::
        (if dropResult = DropOperation.opNone
          then [DragEvent.droppedOutside item tab] else [])) := by
  unfold onListViewDragItemsCompleted
  rw [hres]
  by_cases hd : dropResult = DropOperation.opNone
  · subst hd; simp
  · have hbeq : (dropResult == DropOperation.opNone) = false := by
      cases dropResult <;> simp_all
    rw [hbeq, if_neg hd]
    rfl

/-- Witness for C7: a recognized tab (direct container lookup yields tab
3) dropped with result `None`: the drag-completed event plus exactly one
dropped-outside event. -/
theorem onListViewDragItemsCompleted_spec_witness :
    onListViewDragItemsCompleted (fun _ => some 3) (fun _ => none) 0 (fun _ => none)
        (fun _ => TabDataItem.dataOnlyItem 0) (TabDataItem.dataOnlyItem 1)
        DropOperation.opNone =
      Except.ok [DragEvent.dragCompleted (TabDataItem.dataOnlyItem 1) (some 3),
        DragEvent.droppedOutside (TabDataItem.dataOnlyItem 1) (some 3)] := by
  have h := onListViewDragItemsCompleted_spec (fun _ => some 3) (fun _ => none) 0
    (fun _ => none) (fun _ => TabDataItem.dataOnlyItem 0) (TabDataItem.dataOnlyItem 1)
    DropOperation.opNone (some 3) rfl
  simpa using h

/-- Claim C8: for every Up or Down focus-navigation event whose old and
new focused elements are both tabs belonging to this control's host list,
with an input device other than a game controller, the handler cancels
the navigation and marks it handled (no redirection), so focus stays on
the originally focused tab. -/
theorem onListViewGettingFocus_cancels (direction : FocusNavDirection)
    (oldC newC : Nat) (ifc : Nat → Int) (dev : FocusDeviceKind)
    (hdir : direction = FocusNavDirection.up ∨ direction = FocusNavDirection.down)
    (hold : ifc oldC ≠ -1) (hnew : ifc newC ≠ -1)
    (hdev : dev ≠ FocusDeviceKind.gameController) :
    onListViewGettingFocus direction (some oldC) (some newC) true ifc dev =
      { cancelled := true, handled := true, redirected := false } := by
  have hdirb : (direction == FocusNavDirection.up
      || direction == FocusNavDirection.down) = true := by
    rcases hdir with h | h <;> subst h <;> rfl
  have hdevb : (dev == FocusDeviceKind.gameController) = false := by
    cases dev <;> simp_all
  have holdb : (ifc oldC != -1) = true := by
    simp [bne_iff_ne, hold]
  have hnewb : (ifc newC != -1) = true := by
    simp [bne_iff_ne, hnew]
  simp [onListViewGettingFocus, hdirb, holdb, hnewb, hdevb]

/-- Witness for C8: Up-arrow on the keyboard, focus moving between two
containers of this list (indices 2 and 1): cancelled and handled. -/
theorem onListViewGettingFocus_cancels_witness :
    onListViewGettingFocus FocusNavDirection.up (some 2) (some 1) true (fun c => (c : Int))
        FocusDeviceKind.keyboard =
      { cancelled := true, handled := true, redirected := false } :=
  onListViewGettingFocus_cancels FocusNavDirection.up 2 1 (fun c => (c : Int))
    FocusDeviceKind.keyboard (Or.inl rfl) (by decide) (by decide) (by decide)

lemma selectClosestLoop_eq_find (n start : Nat)
    (cont : Nat → Option ListViewItemState)
    (hstart : start < n)
    (hreal : ∀ i, i < n → (cont i).isSome = true) :
    ∀ fuel j, fuel + j = n →
      selectClosestLoop n start cont fuel ((start + j) % n) =
        Except.ok (((List.range fuel).map (fun k => (start + j + k) % n)).find?
          (tabQualifies cont)) := by
  intro fuel
  induction fuel with
  | zero =>
    intro j hj
    simp [selectClosestLoop]
  | succ fuel ih =>
    intro j hj
    have hn : 0 < n := Nat.lt_of_le_of_lt (Nat.zero_le start) hstart
    have hidxlt : (start + j) % n < n := Nat.mod_lt _ hn
    obtain ⟨c, hc⟩ : ∃ c, cont ((start + j) % n) = some c := by
      have hsome := hreal ((start + j) % n) hidxlt
      cases h : cont ((start + j) % n) with
      | none => rw [h] at hsome; exact absurd hsome (by simp)
      | some c => exact ⟨c, rfl⟩
    have hq : tabQualifies cont ((start + j) % n)
        = (c.isEnabled && c.visibility == Visibility.visible) := by
      simp [tabQualifies, hc]
    have hrange : (List.range (fuel + 1)).map (fun k => (start + j + k) % n)
        = (start + j) % n ::
          (List.range fuel).map (fun k => (start + (j + 1) + k) % n) := by
      rw [List.range_succ_eq_map, List.map_cons, List.map_map]
      have harg : (start + j + 0) % n = (start + j) % n := by
        rw [Nat.add_zero]
      rw [harg]
      have hfun : ((fun k => (start + j + k) % n) ∘ Nat.succ)
          = (fun k => (start + (j + 1) + k) % n) := by
        funext k
        simp only [Function.comp]
        congr 1
        omega
      rw [hfun]
    rw [hrange]
    simp only [selectClosestLoop, hc]
    by_cases hcq : (c.isEnabled && c.visibility == Visibility.visible) = true
    · rw [if_pos hcq, List.find?_cons_of_pos _ (by rw [hq]; exact hcq)]
    · have hcq2 : (c.isEnabled && c.visibility == Visibility.visible) = false := by
        cases h : (c.isEnabled && c.visibility == Visibility.visible)
        · rfl
        · exact absurd h hcq
      rw [if_neg hcq, List.find?_cons_of_neg _ (by rw [hq]; exact hcq)]
      have hnext : (if n ≤ (start + j) % n + 1 then 0 else (start + j) % n + 1)
          = (start + (j + 1)) % n := by
        have harg2 : start + (j + 1) = start + j + 1 := by omega
        by_cases hwrap : n ≤ (start + j) % n + 1
        · have heqn : (start + j) % n + 1 = n := by omega
          have hstep0 : (start + j + 1) % n = 0 := by
            conv_lhs => rw [← Nat.div_add_mod (start + j) n]
            rw [Nat.add_assoc, Nat.mul_add_mod, heqn, Nat.mod_self]
          rw [if_pos hwrap, harg2, hstep0]
        · have hlt2 : (start + j) % n + 1 < n := by omega
          have hstep : (start + j + 1) % n = (start + j) % n + 1 := by
            conv_lhs => rw [← Nat.div_add_mod (start + j) n]
            rw [Nat.add_assoc, Nat.mul_add_mod]
            exact Nat.mod_eq_of_lt hlt2
          rw [if_neg hwrap, harg2, hstep]
      rw [hnext]
      by_cases hstop : (start + (j + 1)) % n = start
      · rw [if_pos hstop]
        have hfuel0 : fuel = 0 := by
          by_contra hf
          have hjlt : j + 1 < n := by omega
          have hdm := Nat.div_add_mod (start + (j + 1)) n
          rw [hstop] at hdm
          have hmul : n * ((start + (j + 1)) / n) = j + 1 := by omega
          rcases Nat.eq_zero_or_pos ((start + (j + 1)) / n) with hq | hq
          · rw [hq, Nat.mul_zero] at hmul
            omega
          · have h2 : n * 1 ≤ n * ((start + (j + 1)) / n) := Nat.mul_le_mul_left n hq
            rw [Nat.mul_one] at h2
            omega
        subst hfuel0
        simp
      · rw [if_neg hstop]
        exact ih (j + 1) (by omega)

/-- Claim C2 counterexample: removing the last tab (removal index 2) from
a three-tab collection with unset selection leaves two tabs, all enabled
and visible; the code clamps the scan start to `numItems - 1 = 1` and
selects index 1, while a scan that starts at the removal index 2 and
wraps (as the claim states) would select index 0 — the code does not pick
the nearest tab at or after the removed index. -/
theorem onItemsChangedRemoved_cex :
    onItemsChangedRemoved 2 (-1) 2 (fun _ => some ⟨true, Visibility.visible⟩) =
        Except.ok (some 1) ∧
      (cycleFrom 2 2).find?
          (tabQualifies (fun _ => some ⟨true, Visibility.visible⟩)) = some 0 := by
  exact ⟨rfl, rfl⟩

/-- Claim C2 (amended): on an item-removed notification with a non-empty
resulting collection, if the selection was unset or pointed at the
removed index, then — provided every index resolves to a realized list
item container — the handler scans circularly forward from
`min(removal index, new count - 1)` (wrapping to 0, stopping after one
full pass) and selects exactly the first enabled and visible tab in that
order; if no tab qualifies, the selection stays unset. -/
theorem onItemsChangedRemoved_selects_first (n : Nat) (sel : Int) (r : Nat)
    (cont : Nat → Option ListViewItemState)
    (hn : 0 < n) (hsel : sel = -1 ∨ sel = (r : Int))
    (hreal : ∀ i, i < n → (cont i).isSome = true) :
    onItemsChangedRemoved n sel r cont =
      Except.ok ((cycleFrom n (min r (n - 1))).find? (tabQualifies cont)) := by
  have hselb : (sel == -1 || sel == (r : Int)) = true := by
    rcases hsel with h | h <;> subst h <;> simp
  have hstartval : (if n ≤ r then n - 1 else r) = min r (n - 1) := by
    rw [Nat.min_def]
    split_ifs <;> omega
  have hstartlt : min r (n - 1) < n := by
    rw [Nat.min_def]
    split_ifs <;> omega
  have hloop := selectClosestLoop_eq_find n (min r (n - 1)) cont hstartlt hreal n 0
    (by omega)
  have hidx : (min r (n - 1) + 0) % n = min r (n - 1) := by
    rw [Nat.add_zero, Nat.mod_eq_of_lt hstartlt]
  rw [hidx] at hloop
  have hcyc : (List.range n).map (fun k => (min r (n - 1) + 0 + k) % n)
      = cycleFrom n (min r (n - 1)) := rfl
  rw [hcyc] at hloop
  unfold onItemsChangedRemoved
  rw [if_pos hn, if_pos hselb, hstartval]
  exact hloop

/-- Witness for the amended C2: three tabs remain, selection unset,
removal at index 1, only the container at index 2 enabled and visible:
the scan starting at index 1 selects index 2. -/
theorem onItemsChangedRemoved_selects_first_witness :
    onItemsChangedRemoved 3 (-1) 1
        (fun i => if i == 2 then some ⟨true, Visibility.visible⟩
          else some ⟨false, Visibility.visible⟩) =
      Except.ok ((cycleFrom 3 (min 1 (3 - 1))).find?
        (tabQualifies (fun i => if i == 2 then some ⟨true, Visibility.visible⟩
          else some ⟨false, Visibility.visible⟩))) :=
  onItemsChangedRemoved_selects_first 3 (-1) 1
    (fun i => if i == 2 then some ⟨true, Visibility.visible⟩
      else some ⟨false, Visibility.visible⟩)
    (by decide) (Or.inl rfl) (by decide)
